import Mathlib

/-!
Shallow embedding of the `breaker` Go package (circuit-breaker pattern).

Modelling conventions:
* `uint32` counters use `Nat` together with an explicit `% 2^32`
  (`addU32`), matching `sync/atomic.AddUint32` wraparound semantics.
* `time.Duration` values are `Nat` nanoseconds.
* Each registered subscriber is modelled by the list of events delivered
  to its inbound channel, so `Breaker.events : List (List BreakerEvent)`.
* The timer goroutines spawned by `StartTimerChangeState` are modelled by
  the instrumentation field `pendingTimers` counting the scheduled
  Open→HalfOpen actions that have not fired yet; `TimerFire` is the body
  the goroutine runs once its timer elapses.
* `Execute` runs the protected operation `handle`; the operation is
  modelled by the `ResponseCommand` it would return, and the outcome of
  the race between the operation and the `timeout`-timer is the
  nondeterministic parameter `timerWon` (ignored when `timeout = 0`,
  where the Go code blocks on the operation).
* `NewBreaker` reads `time.Now().UnixNano()` to derive a default name;
  that clock value is passed in as the explicit parameter `nowNano`.
-/

namespace breaker

def U32 : Nat := 4294967296

/-- `sync/atomic.AddUint32`: addition modulo `2^32`. -/
def addU32 (x d : Nat) : Nat := (x + d) % U32

/-- `time.Second` in nanoseconds. -/
def timeSecond : Nat := 1000000000

inductive State where
  | STATE_CLOSE
  | STATE_HALF_OPEN
  | STATE_OPEN
deriving DecidableEq

open State

inductive StateService where
  | SERVICE_AVAILABLE
  | SERVICE_UNAVAILABLE
deriving DecidableEq

open StateService

/-- A Go `error` value; `errors.New` carries its message. -/
inductive GoErr where
  | errNew (msg : String)
deriving DecidableEq

structure ResponseCommand where
  Data : Option String
  Error : Option GoErr
deriving DecidableEq

structure CounterResult where
  TotalRequests : Nat
  TotalSucceses : Nat
  TotalFailures : Nat
  TotalRejects : Nat
deriving DecidableEq

structure BreakerEvent where
  Code : StateService
  Message : String
deriving DecidableEq

structure OptionsConfig where
  Attempts : Nat
  TimeoutState : Nat
  LimitFailure : Nat
  MaxRequests : Nat
  NameService : String
deriving DecidableEq

structure Breaker where
  options : OptionsConfig
  counter : CounterResult
  events : List (List BreakerEvent)
  state : State
  consecFailures : Nat
  pendingTimers : Nat
deriving DecidableEq

def ErrorToManyRequest : GoErr := GoErr.errNew "To many requests"

def ErrorTimeoutExecute : GoErr := GoErr.errNew "Execute is expired"

def ErrorServiceUnavailable : GoErr := GoErr.errNew "Service is unavailable"

/-- `NewBreaker`: apply defaults for zero/empty options fields, start Closed. -/
def NewBreaker (options : Option OptionsConfig) (nowNano : Int) : Breaker :=
  let o0 : OptionsConfig := match options with
    | none => { Attempts := 0, TimeoutState := 0, LimitFailure := 0,
                MaxRequests := 0, NameService := "" }
    | some o => o
  let o1 := if o0.Attempts = 0 then { o0 with Attempts := 3 } else o0
  let o2 := if o1.TimeoutState = 0 then { o1 with TimeoutState := 4 * timeSecond } else o1
  let o3 := if o2.LimitFailure = 0 then { o2 with LimitFailure := 5 } else o2
  let o4 := if o3.MaxRequests = 0 then { o3 with MaxRequests := 10000000 } else o3
  let o5 := if o4.NameService = "" then { o4 with NameService := toString nowNano } else o4
  { options := o5,
    counter := { TotalRequests := 0, TotalSucceses := 0,
                 TotalFailures := 0, TotalRejects := 0 },
    events := [], state := STATE_CLOSE, consecFailures := 0, pendingTimers := 0 }

/-- `SendEvent`: deliver the event to every registered subscriber channel. -/
def SendEvent (cb : Breaker) (event : BreakerEvent) : Breaker :=
  { cb with events := cb.events.map (fun reader => reader ++ [event]) }

/-- `Subcriber` (sic): register a new subscriber with an empty inbound log. -/
def Subcriber (cb : Breaker) : Breaker :=
  { cb with events := cb.events ++ [[]] }

def SetState (cb : Breaker) (newState : State) : Breaker :=
  { cb with state := newState }

def GetState (cb : Breaker) : State := cb.state

def IsOpen (cb : Breaker) : Bool :=
  if GetState cb = STATE_OPEN then true else false

def IsClose (cb : Breaker) : Bool :=
  if GetState cb = STATE_CLOSE then true else false

def IsHalfOpen (cb : Breaker) : Bool :=
  if GetState cb = STATE_HALF_OPEN then true else false

def Reject (cb : Breaker) : Breaker :=
  { cb with counter :=
      { cb.counter with TotalRejects := addU32 cb.counter.TotalRejects 1 } }

def Success (cb : Breaker) : Breaker :=
  let cb1 := { cb with counter :=
      { cb.counter with TotalSucceses := addU32 cb.counter.TotalSucceses 1 } }
  if IsHalfOpen cb1 then
    { (SetState cb1 STATE_CLOSE) with consecFailures := 0 }
  else cb1

def unavailableEvent (name : String) : BreakerEvent :=
  { Code := SERVICE_UNAVAILABLE, Message := "Service " ++ name ++ " is unavailable" }

def availableEvent (name : String) : BreakerEvent :=
  { Code := SERVICE_AVAILABLE, Message := "Service " ++ name ++ " is available" }

def StartTimerChangeState (cb : Breaker) : Breaker :=
  { cb with pendingTimers := cb.pendingTimers + 1 }

def Failure (cb : Breaker) : Breaker :=
  let cb1 := { cb with counter :=
      { cb.counter with TotalFailures := addU32 cb.counter.TotalFailures 1 } }
  let cb2 :=
    if IsClose cb1 then
      let cb1a := { cb1 with consecFailures := addU32 cb1.consecFailures 1 }
      if cb1a.consecFailures > cb1a.options.LimitFailure then
        SendEvent (StartTimerChangeState (SetState cb1a STATE_OPEN))
          (unavailableEvent cb1a.options.NameService)
      else cb1a
    else cb1
  if IsHalfOpen cb2 then
    SendEvent (StartTimerChangeState (SetState cb2 STATE_OPEN))
      (unavailableEvent cb2.options.NameService)
  else cb2

/-- Body of the goroutine spawned by `StartTimerChangeState`, run once its
`timeoutState` timer has elapsed: it consumes the pending action, re-checks
the state and performs Open→HalfOpen only if still Open. -/
def TimerFire (cb : Breaker) : Breaker :=
  let cb1 := { cb with pendingTimers := cb.pendingTimers - 1 }
  if GetState cb1 = STATE_OPEN then
    SendEvent (SetState cb1 STATE_HALF_OPEN) (availableEvent cb1.options.NameService)
  else cb1

/-- `Execute`: `handle` is the protected operation modelled by its result;
`timerWon` is the outcome of the race between the operation and the
`timeout`-timer (only consulted when `timeout ≠ 0`). -/
def Execute (cb : Breaker) (handle : ResponseCommand) (timeout : Nat)
    (timerWon : Bool) : Breaker × ResponseCommand :=
  let cb1 := { cb with counter :=
      { cb.counter with TotalRequests := addU32 cb.counter.TotalRequests 1 } }
  if IsOpen cb1 then
    (Reject cb1, { Data := none, Error := some ErrorServiceUnavailable })
  else
    let response : ResponseCommand :=
      if timeout = 0 then handle
      else if timerWon then { Data := none, Error := some ErrorTimeoutExecute }
      else handle
    if response.Error.isSome then (Failure cb1, response)
    else (Success cb1, response)

/-- Names the response produced by the body of `Execute` once the call is
admitted (the `timeout = 0` synchronous path, or the race between the
operation and the timer). Used to state lemmas about `Execute`. -/
def raceResponse (handle : ResponseCommand) (timeout : Nat) (timerWon : Bool) :
    ResponseCommand :=
  if timeout = 0 then handle
  else if timerWon then { Data := none, Error := some ErrorTimeoutExecute }
  else handle

def State.toString : State → String
  | STATE_CLOSE => "close"
  | STATE_HALF_OPEN => "half_open"
  | STATE_OPEN => "open"

/-- One `Execute` call of a sequential caller: the operation result,
the timeout and the race outcome. -/
structure ExecCall where
  handle : ResponseCommand
  timeout : Nat
  timerWon : Bool
deriving DecidableEq

def runExecs (cb : Breaker) : List ExecCall → Breaker
  | [] => cb
  | c :: rest => runExecs (Execute cb c.handle c.timeout c.timerWon).1 rest

/-- Configurations producible by the public operations (including the
public `SetState`) and timer firings; a timer can fire only when a
scheduled action is actually outstanding. -/
inductive Reachable : Breaker → Prop where
  | init (opts : Option OptionsConfig) (now : Int) : Reachable (NewBreaker opts now)
  | exec {cb : Breaker} (h : ResponseCommand) (t : Nat) (w : Bool) :
      Reachable cb → (t = 0 → w = false) → Reachable (Execute cb h t w).1
  | success {cb : Breaker} : Reachable cb → Reachable (Success cb)
  | failure {cb : Breaker} : Reachable cb → Reachable (Failure cb)
  | reject {cb : Breaker} : Reachable cb → Reachable (Reject cb)
  | subscribe {cb : Breaker} : Reachable cb → Reachable (Subcriber cb)
  | set {cb : Breaker} (s : State) : Reachable cb → Reachable (SetState cb s)
  | fire {cb : Breaker} : Reachable cb → 1 ≤ cb.pendingTimers → Reachable (TimerFire cb)

/-- Same reachability relation with the manual `SetState` excluded. -/
inductive ReachableNoSet : Breaker → Prop where
  | init (opts : Option OptionsConfig) (now : Int) : ReachableNoSet (NewBreaker opts now)
  | exec {cb : Breaker} (h : ResponseCommand) (t : Nat) (w : Bool) :
      ReachableNoSet cb → (t = 0 → w = false) → ReachableNoSet (Execute cb h t w).1
  | success {cb : Breaker} : ReachableNoSet cb → ReachableNoSet (Success cb)
  | failure {cb : Breaker} : ReachableNoSet cb → ReachableNoSet (Failure cb)
  | reject {cb : Breaker} : ReachableNoSet cb → ReachableNoSet (Reject cb)
  | subscribe {cb : Breaker} : ReachableNoSet cb → ReachableNoSet (Subcriber cb)
  | fire {cb : Breaker} : ReachableNoSet cb → 1 ≤ cb.pendingTimers →
      ReachableNoSet (TimerFire cb)

/-- The timer-bookkeeping invariant: an Open breaker has exactly one
scheduled Open→HalfOpen action outstanding, a non-Open breaker has none. -/
def TimerInv (cb : Breaker) : Prop :=
  cb.pendingTimers = if cb.state = STATE_OPEN then 1 else 0

/- Concrete instances used by witnesses and counterexamples. -/

def optsW : OptionsConfig :=
  { Attempts := 1, TimeoutState := 1, LimitFailure := 2, MaxRequests := 1,
    NameService := "svc" }

def optsZ : OptionsConfig :=
  { Attempts := 0, TimeoutState := 0, LimitFailure := 0, MaxRequests := 0,
    NameService := "" }

def cbW : Breaker := Subcriber (NewBreaker (some optsW) 0)

def cbOpenW : Breaker := SetState (NewBreaker (some optsW) 0) STATE_OPEN

def cbHalfW : Breaker := SetState cbW STATE_HALF_OPEN

def cbFireW : Breaker := StartTimerChangeState cbOpenW

def optsOne : OptionsConfig :=
  { Attempts := 1, TimeoutState := 1, LimitFailure := 1, MaxRequests := 1,
    NameService := "svc" }

def cbTrip : Breaker := Failure (Failure (NewBreaker (some optsOne) 0))

def optsMax : OptionsConfig :=
  { Attempts := 1, TimeoutState := 1, LimitFailure := U32 - 1, MaxRequests := 1,
    NameService := "svc" }

def cbMax : Breaker := Subcriber (NewBreaker (some optsMax) 0)

def hOk : ResponseCommand := { Data := some "ok", Error := none }

def hFail : ResponseCommand := { Data := none, Error := some (GoErr.errNew "boom") }

def callsW : List ExecCall :=
  [ { handle := hOk, timeout := 0, timerWon := false },
    { handle := hFail, timeout := 5, timerWon := false },
    { handle := hOk, timeout := 5, timerWon := true } ]

/-! Helper lemmas: case characterizations of each operation. -/

theorem IsOpen_iff (cb : Breaker) : IsOpen cb = true ↔ cb.state = STATE_OPEN := by
  by_cases h : cb.state = STATE_OPEN <;> simp [IsOpen, GetState, h]

theorem IsClose_iff (cb : Breaker) : IsClose cb = true ↔ cb.state = STATE_CLOSE := by
  by_cases h : cb.state = STATE_CLOSE <;> simp [IsClose, GetState, h]

theorem IsHalfOpen_iff (cb : Breaker) :
    IsHalfOpen cb = true ↔ cb.state = STATE_HALF_OPEN := by
  by_cases h : cb.state = STATE_HALF_OPEN <;> simp [IsHalfOpen, GetState, h]

theorem Success_not_halfOpen (cb : Breaker) (h : cb.state ≠ STATE_HALF_OPEN) :
    Success cb = { cb with
      counter := { cb.counter with TotalSucceses := addU32 cb.counter.TotalSucceses 1 } } := by
  simp [Success, IsHalfOpen, GetState, h]

theorem Success_halfOpen (cb : Breaker) (h : cb.state = STATE_HALF_OPEN) :
    Success cb = { cb with
      counter := { cb.counter with TotalSucceses := addU32 cb.counter.TotalSucceses 1 },
      state := STATE_CLOSE,
      consecFailures := 0 } := by
  simp [Success, IsHalfOpen, GetState, SetState, h]

theorem Failure_open (cb : Breaker) (h : cb.state = STATE_OPEN) :
    Failure cb = { cb with
      counter := { cb.counter with TotalFailures := addU32 cb.counter.TotalFailures 1 } } := by
  simp [Failure, IsClose, IsHalfOpen, GetState, h]

theorem Failure_halfOpen (cb : Breaker) (h : cb.state = STATE_HALF_OPEN) :
    Failure cb = { cb with
      counter := { cb.counter with TotalFailures := addU32 cb.counter.TotalFailures 1 },
      events := cb.events.map (fun reader => reader ++ [unavailableEvent cb.options.NameService]),
      state := STATE_OPEN,
      pendingTimers := cb.pendingTimers + 1 } := by
  simp [Failure, IsClose, IsHalfOpen, GetState, SetState, StartTimerChangeState, SendEvent, h]

theorem Failure_closed_noTrip (cb : Breaker) (h : cb.state = STATE_CLOSE)
    (hle : ¬ addU32 cb.consecFailures 1 > cb.options.LimitFailure) :
    Failure cb = { cb with
      counter := { cb.counter with TotalFailures := addU32 cb.counter.TotalFailures 1 },
      consecFailures := addU32 cb.consecFailures 1 } := by
  simp [Failure, IsClose, IsHalfOpen, GetState, h, hle]

theorem Failure_closed_trip (cb : Breaker) (h : cb.state = STATE_CLOSE)
    (hgt : addU32 cb.consecFailures 1 > cb.options.LimitFailure) :
    Failure cb = { cb with
      counter := { cb.counter with TotalFailures := addU32 cb.counter.TotalFailures 1 },
      events := cb.events.map (fun reader => reader ++ [unavailableEvent cb.options.NameService]),
      state := STATE_OPEN,
      consecFailures := addU32 cb.consecFailures 1,
      pendingTimers := cb.pendingTimers + 1 } := by
  simp [Failure, IsClose, IsHalfOpen, GetState, SetState, StartTimerChangeState, SendEvent, h, hgt]

theorem TimerFire_open (cb : Breaker) (h : cb.state = STATE_OPEN) :
    TimerFire cb = { cb with
      events := cb.events.map (fun reader => reader ++ [availableEvent cb.options.NameService]),
      state := STATE_HALF_OPEN,
      pendingTimers := cb.pendingTimers - 1 } := by
  simp [TimerFire, GetState, SetState, SendEvent, h]

theorem TimerFire_not_open (cb : Breaker) (h : cb.state ≠ STATE_OPEN) :
    TimerFire cb = { cb with pendingTimers := cb.pendingTimers - 1 } := by
  simp [TimerFire, GetState, h]

theorem Execute_open_case (cb : Breaker) (hd : ResponseCommand) (t : Nat) (w : Bool)
    (h : cb.state = STATE_OPEN) :
    Execute cb hd t w =
      ({ cb with
          counter := { cb.counter with
            TotalRequests := addU32 cb.counter.TotalRequests 1,
            TotalRejects := addU32 cb.counter.TotalRejects 1 } },
       { Data := none, Error := some ErrorServiceUnavailable }) := by
  simp [Execute, IsOpen, GetState, Reject, h]

theorem Execute_notOpen (cb : Breaker) (hd : ResponseCommand) (t : Nat) (w : Bool)
    (h : cb.state ≠ STATE_OPEN) :
    Execute cb hd t w =
      (if (raceResponse hd t w).Error.isSome
        then Failure { cb with
          counter := { cb.counter with TotalRequests := addU32 cb.counter.TotalRequests 1 } }
        else Success { cb with
          counter := { cb.counter with TotalRequests := addU32 cb.counter.TotalRequests 1 } },
       raceResponse hd t w) := by
  by_cases ht : t = 0 <;> by_cases hw : w <;> by_cases he : hd.Error.isSome <;>
    simp [Execute, IsOpen, GetState, raceResponse, h, ht, hw, he]

theorem Success_counter (cb : Breaker) :
    (Success cb).counter =
      { cb.counter with TotalSucceses := addU32 cb.counter.TotalSucceses 1 } := by
  by_cases hs : cb.state = STATE_HALF_OPEN
  · rw [Success_halfOpen cb hs]
  · rw [Success_not_halfOpen cb hs]

theorem Failure_counter (cb : Breaker) :
    (Failure cb).counter =
      { cb.counter with TotalFailures := addU32 cb.counter.TotalFailures 1 } := by
  cases hs : cb.state with
  | STATE_CLOSE =>
    by_cases hgt : addU32 cb.consecFailures 1 > cb.options.LimitFailure
    · rw [Failure_closed_trip cb hs hgt]
    · rw [Failure_closed_noTrip cb hs hgt]
  | STATE_HALF_OPEN => rw [Failure_halfOpen cb hs]
  | STATE_OPEN => rw [Failure_open cb hs]

theorem TimerInv_Reject (cb : Breaker) (h : TimerInv cb) : TimerInv (Reject cb) := by
  simpa [TimerInv, Reject] using h

theorem TimerInv_Subcriber (cb : Breaker) (h : TimerInv cb) : TimerInv (Subcriber cb) := by
  simpa [TimerInv, Subcriber] using h

theorem TimerInv_Success (cb : Breaker) (h : TimerInv cb) : TimerInv (Success cb) := by
  by_cases hs : cb.state = STATE_HALF_OPEN
  · rw [Success_halfOpen cb hs]
    unfold TimerInv at h ⊢
    simp [hs] at h
    simpa using h
  · rw [Success_not_halfOpen cb hs]
    simpa [TimerInv] using h

theorem TimerInv_Failure (cb : Breaker) (h : TimerInv cb) : TimerInv (Failure cb) := by
  cases hs : cb.state with
  | STATE_CLOSE =>
    by_cases hgt : addU32 cb.consecFailures 1 > cb.options.LimitFailure
    · rw [Failure_closed_trip cb hs hgt]
      unfold TimerInv at h ⊢
      simp [hs] at h
      simp [h]
    · rw [Failure_closed_noTrip cb hs hgt]
      simpa [TimerInv] using h
  | STATE_HALF_OPEN =>
    rw [Failure_halfOpen cb hs]
    unfold TimerInv at h ⊢
    simp [hs] at h
    simp [h]
  | STATE_OPEN =>
    rw [Failure_open cb hs]
    simpa [TimerInv] using h

theorem TimerInv_TimerFire (cb : Breaker) (h : TimerInv cb) : TimerInv (TimerFire cb) := by
  by_cases hs : cb.state = STATE_OPEN
  · rw [TimerFire_open cb hs]
    unfold TimerInv at h ⊢
    simp [hs] at h
    simp [h]
  · rw [TimerFire_not_open cb hs]
    unfold TimerInv at h ⊢
    simp [hs] at h ⊢
    simp [h]

theorem TimerInv_Execute (cb : Breaker) (hd : ResponseCommand) (t : Nat) (w : Bool)
    (h : TimerInv cb) : TimerInv (Execute cb hd t w).1 := by
  by_cases hs : cb.state = STATE_OPEN
  · rw [Execute_open_case cb hd t w hs]
    simpa [TimerInv] using h
  · rw [Execute_notOpen cb hd t w hs]
    have h1 : TimerInv { cb with
        counter := { cb.counter with TotalRequests := addU32 cb.counter.TotalRequests 1 } } := by
      simpa [TimerInv] using h
    by_cases he : (raceResponse hd t w).Error.isSome
    · simpa [he] using TimerInv_Failure _ h1
    · simpa [he] using TimerInv_Success _ h1

theorem timerInv_of_reachableNoSet (cb : Breaker) (h : ReachableNoSet cb) :
    TimerInv cb := by
  induction h with
  | init opts now => simp [TimerInv, NewBreaker]
  | exec hd t w _ _ ih => exact TimerInv_Execute _ hd t w ih
  | success _ ih => exact TimerInv_Success _ ih
  | failure _ ih => exact TimerInv_Failure _ ih
  | reject _ ih => exact TimerInv_Reject _ ih
  | subscribe _ ih => exact TimerInv_Subcriber _ ih
  | fire _ _ ih => exact TimerInv_TimerFire _ ih

/-- C6 counterexample: the public `SetState` is among the allowed operations,
and `SetState STATE_OPEN` on a fresh breaker produces a reachable
configuration that is Open with zero pending scheduled transitions. -/
theorem open_without_timer_reachable :
    Reachable cbOpenW ∧ cbOpenW.state = STATE_OPEN ∧ ¬ cbOpenW.pendingTimers = 1 :=
  ⟨Reachable.set STATE_OPEN (Reachable.init (some optsW) 0), by decide, by decide⟩

/-- C6 (amended): in every configuration reachable by the public operations
excluding the manual `SetState` (NewBreaker, Execute, Success, Failure,
Reject, Subcriber) and timer firings, the Open state has exactly one
pending scheduled Open→HalfOpen transition action outstanding. -/
theorem open_timer_invariant (cb : Breaker) (h : ReachableNoSet cb)
    (ho : cb.state = STATE_OPEN) : cb.pendingTimers = 1 := by
  have hI := timerInv_of_reachableNoSet cb h
  unfold TimerInv at hI
  simpa [ho] using hI

/-- C6 witness: a breaker driven to Open by two recorded failures
(limit 1) is reachable without `SetState` and has exactly one pending
scheduled transition. -/
theorem open_timer_invariant_witness :
    ReachableNoSet cbTrip ∧ cbTrip.state = STATE_OPEN ∧ cbTrip.pendingTimers = 1 :=
  ⟨ReachableNoSet.failure (ReachableNoSet.failure (ReachableNoSet.init (some optsOne) 0)),
   by decide,
   open_timer_invariant cbTrip
     (ReachableNoSet.failure (ReachableNoSet.failure (ReachableNoSet.init (some optsOne) 0)))
     (by decide)⟩

/-- C2: while Open, every `Execute` call returns the ServiceUnavailable
error with nil data, increments the reject counter by one (uint32), never
invokes the operation (the call's outcome is independent of it), and
leaves the state, the consecutive-failure count and the success and
failure counters unchanged. -/
theorem Execute_open_rejects (cb : Breaker) (hd hd2 : ResponseCommand) (t : Nat)
    (w : Bool) (ho : cb.state = STATE_OPEN) :
    (Execute cb hd t w).2.Error = some ErrorServiceUnavailable ∧
    (Execute cb hd t w).2.Data = none ∧
    (Execute cb hd t w).1.counter.TotalRejects = addU32 cb.counter.TotalRejects 1 ∧
    (Execute cb hd t w).1.state = cb.state ∧
    (Execute cb hd t w).1.consecFailures = cb.consecFailures ∧
    (Execute cb hd t w).1.counter.TotalSucceses = cb.counter.TotalSucceses ∧
    (Execute cb hd t w).1.counter.TotalFailures = cb.counter.TotalFailures ∧
    Execute cb hd2 t w = Execute cb hd t w := by
  rw [Execute_open_case cb hd t w ho, Execute_open_case cb hd2 t w ho]
  exact ⟨rfl, rfl, rfl, rfl, rfl, rfl, rfl, rfl⟩

/-- C2 witness at a concrete Open breaker. -/
theorem Execute_open_rejects_witness :
    cbOpenW.state = STATE_OPEN ∧
    ((Execute cbOpenW hOk 7 false).2.Error = some ErrorServiceUnavailable ∧
     (Execute cbOpenW hOk 7 false).2.Data = none ∧
     (Execute cbOpenW hOk 7 false).1.counter.TotalRejects =
       addU32 cbOpenW.counter.TotalRejects 1 ∧
     (Execute cbOpenW hOk 7 false).1.state = cbOpenW.state ∧
     (Execute cbOpenW hOk 7 false).1.consecFailures = cbOpenW.consecFailures ∧
     (Execute cbOpenW hOk 7 false).1.counter.TotalSucceses =
       cbOpenW.counter.TotalSucceses ∧
     (Execute cbOpenW hOk 7 false).1.counter.TotalFailures =
       cbOpenW.counter.TotalFailures ∧
     Execute cbOpenW hFail 7 false = Execute cbOpenW hOk 7 false) :=
  ⟨by decide, Execute_open_rejects cbOpenW hOk hFail 7 false (by decide)⟩

/-- C3: in HalfOpen a single `Success` moves the breaker to Closed and
resets the consecutive-failure count, and a single `Failure` moves it to
Open unconditionally, delivers one Unavailable event to every registered
subscriber and schedules one new Open→HalfOpen transition action. -/
theorem halfOpen_single_probe (cb : Breaker) (hs : cb.state = STATE_HALF_OPEN) :
    Success cb = { cb with
      counter := { cb.counter with TotalSucceses := addU32 cb.counter.TotalSucceses 1 },
      state := STATE_CLOSE,
      consecFailures := 0 } ∧
    Failure cb = { cb with
      counter := { cb.counter with TotalFailures := addU32 cb.counter.TotalFailures 1 },
      events := cb.events.map (fun reader => reader ++ [unavailableEvent cb.options.NameService]),
      state := STATE_OPEN,
      pendingTimers := cb.pendingTimers + 1 } :=
  ⟨Success_halfOpen cb hs, Failure_halfOpen cb hs⟩

/-- C3 witness at a concrete HalfOpen breaker with one subscriber. -/
theorem halfOpen_single_probe_witness :
    cbHalfW.state = STATE_HALF_OPEN ∧
    (Success cbHalfW = { cbHalfW with
      counter := { cbHalfW.counter with
        TotalSucceses := addU32 cbHalfW.counter.TotalSucceses 1 },
      state := STATE_CLOSE,
      consecFailures := 0 } ∧
    Failure cbHalfW = { cbHalfW with
      counter := { cbHalfW.counter with
        TotalFailures := addU32 cbHalfW.counter.TotalFailures 1 },
      events := cbHalfW.events.map
        (fun reader => reader ++ [unavailableEvent cbHalfW.options.NameService]),
      state := STATE_OPEN,
      pendingTimers := cbHalfW.pendingTimers + 1 }) :=
  ⟨by decide, halfOpen_single_probe cbHalfW (by decide)⟩

/-- C5: a fired scheduled action consumes exactly one outstanding action;
if the state is still Open at fire time it performs Open→HalfOpen and
delivers exactly one Available event to every registered subscriber,
and otherwise it changes nothing but the outstanding-action count. -/
theorem TimerFire_guarded (cb : Breaker) (_hp : 1 ≤ cb.pendingTimers) :
    (TimerFire cb).pendingTimers = cb.pendingTimers - 1 ∧
    (cb.state = STATE_OPEN →
      TimerFire cb = { cb with
        events := cb.events.map (fun reader => reader ++ [availableEvent cb.options.NameService]),
        state := STATE_HALF_OPEN,
        pendingTimers := cb.pendingTimers - 1 }) ∧
    (cb.state ≠ STATE_OPEN →
      TimerFire cb = { cb with pendingTimers := cb.pendingTimers - 1 }) := by
  refine ⟨?_, fun ho => TimerFire_open cb ho, fun hn => TimerFire_not_open cb hn⟩
  by_cases hs : cb.state = STATE_OPEN
  · rw [TimerFire_open cb hs]
  · rw [TimerFire_not_open cb hs]

/-- C5 witness at a concrete Open breaker with one outstanding action. -/
theorem TimerFire_guarded_witness :
    1 ≤ cbFireW.pendingTimers ∧ cbFireW.state = STATE_OPEN ∧
    ((TimerFire cbFireW).pendingTimers = cbFireW.pendingTimers - 1 ∧
     (cbFireW.state = STATE_OPEN →
       TimerFire cbFireW = { cbFireW with
         events := cbFireW.events.map
           (fun reader => reader ++ [availableEvent cbFireW.options.NameService]),
         state := STATE_HALF_OPEN,
         pendingTimers := cbFireW.pendingTimers - 1 }) ∧
     (cbFireW.state ≠ STATE_OPEN →
       TimerFire cbFireW = { cbFireW with pendingTimers := cbFireW.pendingTimers - 1 })) :=
  ⟨by decide, by decide, TimerFire_guarded cbFireW (by decide)⟩

/-- C10: `Success` in Closed or Open only increments the success counter;
`Failure` in Open only increments the failure counter; `Reject` only
increments the reject counter, in every state. -/
theorem frame_effects (cb : Breaker) :
    ((cb.state = STATE_CLOSE ∨ cb.state = STATE_OPEN) →
      Success cb = { cb with
        counter := { cb.counter with TotalSucceses := addU32 cb.counter.TotalSucceses 1 } }) ∧
    (cb.state = STATE_OPEN →
      Failure cb = { cb with
        counter := { cb.counter with TotalFailures := addU32 cb.counter.TotalFailures 1 } }) ∧
    Reject cb = { cb with
      counter := { cb.counter with TotalRejects := addU32 cb.counter.TotalRejects 1 } } := by
  refine ⟨fun h => ?_, fun h => Failure_open cb h, rfl⟩
  rcases h with h | h <;> exact Success_not_halfOpen cb (by simp [h])

/-- C10 witness at a concrete Open breaker. -/
theorem frame_effects_witness :
    (cbOpenW.state = STATE_CLOSE ∨ cbOpenW.state = STATE_OPEN) ∧
    cbOpenW.state = STATE_OPEN ∧
    Success cbOpenW = { cbOpenW with
      counter := { cbOpenW.counter with
        TotalSucceses := addU32 cbOpenW.counter.TotalSucceses 1 } } ∧
    Failure cbOpenW = { cbOpenW with
      counter := { cbOpenW.counter with
        TotalFailures := addU32 cbOpenW.counter.TotalFailures 1 } } ∧
    Reject cbOpenW = { cbOpenW with
      counter := { cbOpenW.counter with
        TotalRejects := addU32 cbOpenW.counter.TotalRejects 1 } } :=
  ⟨Or.inr (by decide), by decide, (frame_effects cbOpenW).1 (Or.inr (by decide)),
   (frame_effects cbOpenW).2.1 (by decide), (frame_effects cbOpenW).2.2⟩

/-- C4: on an admitted call, `Execute` with timeout 0 invokes the operation
synchronously and returns its result (the real-time "blocks however long"
aspect is abstracted: the result is always the operation's own); with a
positive timeout, if the timer wins the race the result is the
TimeoutExecute error with nil data — even when the operation's own result
is a success — and the call is recorded as a failure. -/
theorem Execute_timeout_semantics (cb : Breaker) (hd : ResponseCommand) (t : Nat)
    (w : Bool) (hs : cb.state ≠ STATE_OPEN) (ht : 0 < t) :
    (Execute cb hd 0 w).2 = hd ∧
    (Execute cb hd t true).2.Error = some ErrorTimeoutExecute ∧
    (Execute cb hd t true).2.Data = none ∧
    (Execute cb hd t true).1.counter.TotalFailures = addU32 cb.counter.TotalFailures 1 := by
  have hr : raceResponse hd t true = { Data := none, Error := some ErrorTimeoutExecute } := by
    simp [raceResponse, Nat.pos_iff_ne_zero.mp ht]
  have e2 : Execute cb hd t true =
      (Failure { cb with
        counter := { cb.counter with TotalRequests := addU32 cb.counter.TotalRequests 1 } },
       { Data := none, Error := some ErrorTimeoutExecute }) := by
    rw [Execute_notOpen cb hd t true hs, hr]
    simp
  refine ⟨?_, ?_, ?_, ?_⟩
  · rw [Execute_notOpen cb hd 0 w hs]
    rfl
  · rw [e2]
  · rw [e2]
  · rw [e2, Failure_counter]

/-- C4 witness at a concrete Closed breaker and a succeeding operation. -/
theorem Execute_timeout_semantics_witness :
    cbW.state ≠ STATE_OPEN ∧ 0 < 5 ∧
    ((Execute cbW hOk 0 false).2 = hOk ∧
     (Execute cbW hOk 5 true).2.Error = some ErrorTimeoutExecute ∧
     (Execute cbW hOk 5 true).2.Data = none ∧
     (Execute cbW hOk 5 true).1.counter.TotalFailures = addU32 cbW.counter.TotalFailures 1) :=
  ⟨by decide, by decide, Execute_timeout_semantics cbW hOk 5 false (by decide) (by decide)⟩

/-- C7: `NewBreaker` replaces every zero/empty options field by its default
(attempts 3, timeoutState 4s, limitFailure 5, maxRequests 10000000, name
derived from the construction-time clock), keeps every nonzero/nonempty
field, and starts Closed with all counters and the consecutive-failure
count at 0; a nil options pointer behaves as the all-zero options. -/
theorem NewBreaker_defaults (opts : OptionsConfig) (now : Int) :
    NewBreaker (some opts) now =
      { options :=
          { Attempts := if opts.Attempts = 0 then 3 else opts.Attempts,
            TimeoutState := if opts.TimeoutState = 0 then 4 * timeSecond else opts.TimeoutState,
            LimitFailure := if opts.LimitFailure = 0 then 5 else opts.LimitFailure,
            MaxRequests := if opts.MaxRequests = 0 then 10000000 else opts.MaxRequests,
            NameService := if opts.NameService = "" then toString now else opts.NameService },
        counter := { TotalRequests := 0, TotalSucceses := 0,
                     TotalFailures := 0, TotalRejects := 0 },
        events := [], state := STATE_CLOSE, consecFailures := 0, pendingTimers := 0 } ∧
    NewBreaker none now = NewBreaker (some optsZ) now := by
  constructor
  · obtain ⟨a, ts, lf, mr, ns⟩ := opts
    by_cases h1 : a = 0 <;> by_cases h2 : ts = 0 <;> by_cases h3 : lf = 0 <;>
      by_cases h4 : mr = 0 <;> by_cases h5 : ns = "" <;>
      simp [NewBreaker, h1, h2, h3, h4, h5]
  · rfl

/-- C8: the breaker never injects the TooManyRequests error: whenever the
operation's own result is not that error, no `Execute` call returns it,
in any state and for any timeout (in Go the breaker's error values are
created fresh by `errors.New`, so the operation cannot return the
breaker's error identity; the hypothesis is that identity condition). -/
theorem Execute_never_tooManyRequests (cb : Breaker) (hd : ResponseCommand) (t : Nat)
    (w : Bool) (hop : hd.Error ≠ some ErrorToManyRequest) :
    (Execute cb hd t w).2.Error ≠ some ErrorToManyRequest := by
  by_cases hs : cb.state = STATE_OPEN
  · rw [Execute_open_case cb hd t w hs]
    show (some ErrorServiceUnavailable : Option GoErr) ≠ some ErrorToManyRequest
    decide
  · rw [congrArg Prod.snd (Execute_notOpen cb hd t w hs)]
    show (raceResponse hd t w).Error ≠ some ErrorToManyRequest
    unfold raceResponse
    split_ifs
    · exact hop
    · decide
    · exact hop

/-- C8 witness at a concrete Closed breaker with a timed-out call. -/
theorem Execute_never_tooManyRequests_witness :
    hOk.Error ≠ some ErrorToManyRequest ∧
    (Execute cbW hOk 5 true).2.Error ≠ some ErrorToManyRequest :=
  ⟨by decide, Execute_never_tooManyRequests cbW hOk 5 true (by decide)⟩

theorem failure_iter_closed (cb : Breaker) (hst : cb.state = STATE_CLOSE)
    (hcf : cb.consecFailures = 0) (hU : cb.options.LimitFailure < U32) :
    ∀ n, n ≤ cb.options.LimitFailure →
      (Failure^[n] cb).state = STATE_CLOSE ∧
      (Failure^[n] cb).consecFailures = n ∧
      (Failure^[n] cb).events = cb.events ∧
      (Failure^[n] cb).pendingTimers = cb.pendingTimers ∧
      (Failure^[n] cb).options = cb.options := by
  intro n
  induction n with
  | zero => intro _; simpa [hst] using hcf
  | succ n ih =>
    intro hn
    obtain ⟨h1, h2, h3, h4, h5⟩ := ih (Nat.le_of_succ_le hn)
    rw [Function.iterate_succ_apply']
    have hadd : addU32 (Failure^[n] cb).consecFailures 1 = n + 1 := by
      rw [h2]
      unfold addU32 U32
      rw [Nat.mod_eq_of_lt]
      unfold U32 at hU
      omega
    have hng : ¬ addU32 (Failure^[n] cb).consecFailures 1 >
        (Failure^[n] cb).options.LimitFailure := by
      rw [hadd, h5]
      omega
    rw [Failure_closed_noTrip _ h1 hng]
    exact ⟨h1, hadd, h3, h4, h5⟩

theorem failure_iter_maxLimit (cb : Breaker) (hst : cb.state = STATE_CLOSE)
    (hL : cb.options.LimitFailure = U32 - 1) :
    ∀ n, (Failure^[n] cb).state = STATE_CLOSE ∧
         (Failure^[n] cb).events = cb.events ∧
         (Failure^[n] cb).options = cb.options := by
  intro n
  induction n with
  | zero => exact ⟨hst, rfl, rfl⟩
  | succ n ih =>
    obtain ⟨h1, h2, h3⟩ := ih
    rw [Function.iterate_succ_apply']
    have hng : ¬ addU32 (Failure^[n] cb).consecFailures 1 >
        (Failure^[n] cb).options.LimitFailure := by
      rw [h3, hL]
      unfold addU32 U32
      omega
    rw [Failure_closed_noTrip _ h1 hng]
    exact ⟨h1, h2, h3⟩

/-- C1 counterexample: the consecutive-failure count is a uint32, so with
`limitFailure = 2^32 - 1` the guard `consecFailures > limitFailure` can
never hold and the (`limitFailure`+1)-th consecutive failure from Closed
causes no Closed→Open transition and delivers no event to the registered
subscriber, contradicting the claim at this threshold. -/
theorem Failure_limit_maxU32_never_opens :
    cbMax.state = STATE_CLOSE ∧ cbMax.consecFailures = 0 ∧
    cbMax.options.LimitFailure = U32 - 1 ∧
    (Failure^[(U32 - 1) + 1] cbMax).state = STATE_CLOSE ∧
    ¬ (Failure^[(U32 - 1) + 1] cbMax).state = STATE_OPEN ∧
    (Failure^[(U32 - 1) + 1] cbMax).events = cbMax.events := by
  have h := failure_iter_maxLimit cbMax (by decide) (by decide) ((U32 - 1) + 1)
  refine ⟨by decide, by decide, by decide, h.1, ?_, h.2.1⟩
  rw [h.1]
  decide

/-- C1 (amended): for every threshold L = `limitFailure` with L + 1 < 2^32
(the uint32 range of the consecutive-failure counter), starting Closed
with consecutive-failure count 0, the state is still Closed and no event
has been delivered after any N ≤ L consecutive failures, and the
(L+1)-th consecutive failure causes exactly one Closed→Open transition,
delivers exactly one Unavailable event to every currently registered
subscriber, and schedules one transition action. -/
theorem Failure_consecutive_threshold (cb : Breaker) (N : Nat)
    (hst : cb.state = STATE_CLOSE) (hcf : cb.consecFailures = 0)
    (hU : cb.options.LimitFailure + 1 < U32) :
    (N ≤ cb.options.LimitFailure →
      (Failure^[N] cb).state = STATE_CLOSE ∧ (Failure^[N] cb).events = cb.events) ∧
    ((Failure^[cb.options.LimitFailure + 1] cb).state = STATE_OPEN ∧
     (Failure^[cb.options.LimitFailure + 1] cb).events =
       cb.events.map (fun reader => reader ++ [unavailableEvent cb.options.NameService]) ∧
     (Failure^[cb.options.LimitFailure + 1] cb).pendingTimers = cb.pendingTimers + 1) := by
  have hU' : cb.options.LimitFailure < U32 := by omega
  constructor
  · intro hN
    obtain ⟨h1, _, h3, _, _⟩ := failure_iter_closed cb hst hcf hU' N hN
    exact ⟨h1, h3⟩
  · obtain ⟨h1, h2, h3, h4, h5⟩ :=
      failure_iter_closed cb hst hcf hU' cb.options.LimitFailure le_rfl
    rw [Function.iterate_succ_apply']
    have hadd : addU32 (Failure^[cb.options.LimitFailure] cb).consecFailures 1 =
        cb.options.LimitFailure + 1 := by
      rw [h2]
      unfold addU32 U32
      rw [Nat.mod_eq_of_lt]
      unfold U32 at hU
      omega
    have hgt : addU32 (Failure^[cb.options.LimitFailure] cb).consecFailures 1 >
        (Failure^[cb.options.LimitFailure] cb).options.LimitFailure := by
      rw [hadd, h5]
      omega
    rw [Failure_closed_trip _ h1 hgt]
    refine ⟨rfl, ?_, ?_⟩
    · show (Failure^[cb.options.LimitFailure] cb).events.map
        (fun reader => reader ++
          [unavailableEvent (Failure^[cb.options.LimitFailure] cb).options.NameService]) =
        cb.events.map (fun reader => reader ++ [unavailableEvent cb.options.NameService])
      rw [h3, h5]
    · show (Failure^[cb.options.LimitFailure] cb).pendingTimers + 1 = cb.pendingTimers + 1
      rw [h4]

/-- C1 witness at a concrete Closed breaker with limit 2 and one subscriber. -/
theorem Failure_consecutive_threshold_witness :
    cbW.state = STATE_CLOSE ∧ cbW.consecFailures = 0 ∧
    cbW.options.LimitFailure + 1 < U32 ∧ 1 ≤ cbW.options.LimitFailure ∧
    ((1 ≤ cbW.options.LimitFailure →
      (Failure^[1] cbW).state = STATE_CLOSE ∧ (Failure^[1] cbW).events = cbW.events) ∧
     ((Failure^[cbW.options.LimitFailure + 1] cbW).state = STATE_OPEN ∧
      (Failure^[cbW.options.LimitFailure + 1] cbW).events =
        cbW.events.map (fun reader => reader ++ [unavailableEvent cbW.options.NameService]) ∧
      (Failure^[cbW.options.LimitFailure + 1] cbW).pendingTimers = cbW.pendingTimers + 1)) :=
  ⟨by decide, by decide, by decide, by decide,
   Failure_consecutive_threshold cbW 1 (by decide) (by decide) (by decide)⟩

theorem Execute_counter_cases (cb : Breaker) (hd : ResponseCommand) (t : Nat) (w : Bool) :
    (Execute cb hd t w).1.counter =
      (if cb.state = STATE_OPEN then
        { cb.counter with
          TotalRequests := addU32 cb.counter.TotalRequests 1,
          TotalRejects := addU32 cb.counter.TotalRejects 1 }
       else if (Execute cb hd t w).2.Error.isSome then
        { cb.counter with
          TotalRequests := addU32 cb.counter.TotalRequests 1,
          TotalFailures := addU32 cb.counter.TotalFailures 1 }
       else
        { cb.counter with
          TotalRequests := addU32 cb.counter.TotalRequests 1,
          TotalSucceses := addU32 cb.counter.TotalSucceses 1 }) := by
  by_cases hs : cb.state = STATE_OPEN
  · rw [Execute_open_case cb hd t w hs]
    simp [hs]
  · rw [Execute_notOpen cb hd t w hs]
    by_cases he : (raceResponse hd t w).Error.isSome
    · simp [hs, he, Failure_counter]
    · simp [hs, he, Success_counter]

/-- C9: every `Execute` call increments the request counter by one and
exactly one of the reject (when Open), failure (call admitted, resulting
error non-nil) or success (call admitted, resulting error nil) counters
by one, leaving the other two unchanged; consequently, after any sequence
of sequential `Execute` calls on a freshly constructed breaker,
TotalRequests = TotalSucceses + TotalFailures + TotalRejects in uint32
arithmetic. -/
theorem Execute_counter_accounting :
    (∀ (cb : Breaker) (hd : ResponseCommand) (t : Nat) (w : Bool),
      (Execute cb hd t w).1.counter.TotalRequests = addU32 cb.counter.TotalRequests 1 ∧
      (cb.state = STATE_OPEN →
        (Execute cb hd t w).1.counter.TotalRejects = addU32 cb.counter.TotalRejects 1 ∧
        (Execute cb hd t w).1.counter.TotalSucceses = cb.counter.TotalSucceses ∧
        (Execute cb hd t w).1.counter.TotalFailures = cb.counter.TotalFailures) ∧
      (cb.state ≠ STATE_OPEN → (Execute cb hd t w).2.Error.isSome = true →
        (Execute cb hd t w).1.counter.TotalFailures = addU32 cb.counter.TotalFailures 1 ∧
        (Execute cb hd t w).1.counter.TotalSucceses = cb.counter.TotalSucceses ∧
        (Execute cb hd t w).1.counter.TotalRejects = cb.counter.TotalRejects) ∧
      (cb.state ≠ STATE_OPEN → (Execute cb hd t w).2.Error = none →
        (Execute cb hd t w).1.counter.TotalSucceses = addU32 cb.counter.TotalSucceses 1 ∧
        (Execute cb hd t w).1.counter.TotalFailures = cb.counter.TotalFailures ∧
        (Execute cb hd t w).1.counter.TotalRejects = cb.counter.TotalRejects)) ∧
    (∀ (opts : Option OptionsConfig) (now : Int) (calls : List ExecCall),
      (runExecs (NewBreaker opts now) calls).counter.TotalRequests =
        ((runExecs (NewBreaker opts now) calls).counter.TotalSucceses +
         (runExecs (NewBreaker opts now) calls).counter.TotalFailures +
         (runExecs (NewBreaker opts now) calls).counter.TotalRejects) % U32) := by
  have step : ∀ (cb : Breaker) (hd : ResponseCommand) (t : Nat) (w : Bool),
      cb.counter.TotalRequests =
        (cb.counter.TotalSucceses + cb.counter.TotalFailures +
         cb.counter.TotalRejects) % U32 →
      (Execute cb hd t w).1.counter.TotalRequests =
        ((Execute cb hd t w).1.counter.TotalSucceses +
         (Execute cb hd t w).1.counter.TotalFailures +
         (Execute cb hd t w).1.counter.TotalRejects) % U32 := by
    intro cb hd t w h
    rw [Execute_counter_cases cb hd t w]
    simp only [addU32, U32] at h
    by_cases hs : cb.state = STATE_OPEN
    · simp [hs, addU32, U32]
      all_goals omega
    · by_cases he : (Execute cb hd t w).2.Error.isSome
      · simp [hs, he, addU32, U32]
        all_goals omega
      · simp [hs, he, addU32, U32]
        all_goals omega
  constructor
  · intro cb hd t w
    have hc := Execute_counter_cases cb hd t w
    by_cases hs : cb.state = STATE_OPEN
    · refine ⟨?_, fun _ => ⟨?_, ?_, ?_⟩, fun hno => absurd hs hno, fun hno => absurd hs hno⟩ <;>
        simp [hc, hs]
    · by_cases he : (Execute cb hd t w).2.Error.isSome
      · refine ⟨?_, fun ho => absurd ho hs, fun _ _ => ⟨?_, ?_, ?_⟩,
          fun _ hnone => absurd he (by simp [hnone])⟩ <;>
          simp [hc, hs, he]
      · refine ⟨?_, fun ho => absurd ho hs, fun _ he2 => absurd he2 (by simp [he]),
          fun _ _ => ⟨?_, ?_, ?_⟩⟩ <;>
          simp [hc, hs, he]
  · intro opts now calls
    suffices h : ∀ (calls : List ExecCall) (cb : Breaker),
        cb.counter.TotalRequests =
          (cb.counter.TotalSucceses + cb.counter.TotalFailures +
           cb.counter.TotalRejects) % U32 →
        (runExecs cb calls).counter.TotalRequests =
          ((runExecs cb calls).counter.TotalSucceses +
           (runExecs cb calls).counter.TotalFailures +
           (runExecs cb calls).counter.TotalRejects) % U32 by
      exact h calls (NewBreaker opts now) (by simp [NewBreaker])
    intro calls
    induction calls with
    | nil => intro cb h; exact h
    | cons c rest ih =>
      intro cb h
      simp only [runExecs]
      exact ih _ (step cb c.handle c.timeout c.timerWon h)

/-- C9 witness: the per-call accounting at a concrete Open breaker and the
running-sum identity on a concrete three-call sequence. -/
theorem Execute_counter_accounting_witness :
    cbOpenW.state = STATE_OPEN ∧
    (Execute cbOpenW hOk 0 false).1.counter.TotalRequests =
      addU32 cbOpenW.counter.TotalRequests 1 ∧
    (Execute cbOpenW hOk 0 false).1.counter.TotalRejects =
      addU32 cbOpenW.counter.TotalRejects 1 ∧
    (Execute cbOpenW hOk 0 false).1.counter.TotalSucceses =
      cbOpenW.counter.TotalSucceses ∧
    (Execute cbOpenW hOk 0 false).1.counter.TotalFailures =
      cbOpenW.counter.TotalFailures ∧
    (runExecs (NewBreaker (some optsW) 0) callsW).counter.TotalRequests =
      ((runExecs (NewBreaker (some optsW) 0) callsW).counter.TotalSucceses +
       (runExecs (NewBreaker (some optsW) 0) callsW).counter.TotalFailures +
       (runExecs (NewBreaker (some optsW) 0) callsW).counter.TotalRejects) % U32 :=
  ⟨by decide,
   (Execute_counter_accounting.1 cbOpenW hOk 0 false).1,
   ((Execute_counter_accounting.1 cbOpenW hOk 0 false).2.1 (by decide)).1,
   ((Execute_counter_accounting.1 cbOpenW hOk 0 false).2.1 (by decide)).2.1,
   ((Execute_counter_accounting.1 cbOpenW hOk 0 false).2.1 (by decide)).2.2,
   Execute_counter_accounting.2 (some optsW) 0 callsW⟩

end breaker
